import Mathlib

/-
Verification of the kstock-dashboard scoring and aggregation pipeline.

This file is a shallow embedding, in Lean 4, of the decision logic of the
repository: the four Level-1 dimension scorers (technical, quantitative,
qualitative, news sentiment), the per-scorer recommendation ladder, the
Level-1 consensus/aggregation code of the three batch entry points, the
Level-3 portfolio-manager rule, and the per-symbol error containment of the
daily batch runner.  Python floats are modelled as rationals (the scoring
code only ever compares and does exact arithmetic on small decimals),
integer scores as Int, fallible Python code as Except, and fields that may
be absent from a data dict, or present with value None, as Option-layered
values.  Each definition is transcribed from the named source function.
-/

namespace KStock

/-- Per-agent recommendation values, the strings BUY / HOLD / SELL used by
every scorer. -/
inductive Rec where
  | buy
  | hold
  | sell
  deriving DecidableEq, Repr, BEq

/-- Level-1 consensus values: STRONG BUY / BUY / SELL / HOLD. -/
inductive Consensus where
  | strongBuy
  | buy
  | sell
  | hold
  deriving DecidableEq, Repr, BEq

/-! ## Recommendation ladders (C2)

Each of the four agents inlines the same threshold ladder at the end of its
`analyze` method.  The four copies are transcribed separately, mirroring the
duplication in the source. -/

/-- Transcribed from `technical_agent.py` lines 406-411. -/
def techRecommendation (total : ℤ) : Rec :=
  if total ≥ 70 then .buy else if total ≥ 50 then .hold else .sell

/-- Transcribed from `quant_agent.py` lines 403-408. -/
def quantRecommendation (total : ℤ) : Rec :=
  if total ≥ 70 then .buy else if total ≥ 50 then .hold else .sell

/-- Transcribed from `qualitative_agent.py` lines 352-357. -/
def qualRecommendation (total : ℤ) : Rec :=
  if total ≥ 70 then .buy else if total ≥ 50 then .hold else .sell

/-- Transcribed from `news_agent.py` lines 363-368. -/
def newsRecommendation (total : ℤ) : Rec :=
  if total ≥ 70 then .buy else if total ≥ 50 then .hold else .sell

/-! ## Level-1 consensus rules (C1)

Three entry points aggregate the four agents' recommendations.
`test_level1_all.py` lines 92-104 implements the full priority ladder.
`daily_level1_fdr.py` line 202 and `daily_level1_fullmarket.py` line 147
both use a one-line conditional expression that has no SELL branch. -/

/-- `recommendations.count(r)` on a Python list of recommendation strings. -/
def countRec (r : Rec) (recs : List Rec) : ℕ :=
  (recs.filter (fun x => x == r)).length

/-- Consensus of `run_all_level1_agents` (`test_level1_all.py` lines 92-104):
buy_votes >= 3 -> STRONG BUY, elif buy_votes >= 2 -> BUY,
elif sell_votes >= 2 -> SELL, else HOLD. -/
def consensusLevel1All (recs : List Rec) : Consensus :=
  let buyCount := countRec .buy recs
  let sellCount := countRec .sell recs
  if buyCount ≥ 3 then .strongBuy
  else if buyCount ≥ 2 then .buy
  else if sellCount ≥ 2 then .sell
  else .hold

/-- Consensus of `Level1BatchRunnerFDR.analyze_stock` (`daily_level1_fdr.py`
line 202) and of `analyze_stock` in `daily_level1_fullmarket.py` line 147:
STRONG BUY if buy_count >= 3 else BUY if buy_count >= 2 else HOLD.
There is no SELL branch. -/
def consensusFDR (recs : List Rec) : Consensus :=
  let buyCount := countRec .buy recs
  if buyCount ≥ 3 then .strongBuy
  else if buyCount ≥ 2 then .buy
  else .hold

/-! ## Technical scorer (`technical_agent.py`)

The four sub-dimension ladders of `TechnicalAnalysisAgent` read a fixed set
of scalar indicator values from the last rows of the indicator dataframe.
`TechData` records exactly those scalars (as rationals) together with the
row count of the dataframe after `dropna()`. -/

/-- The indicator values read by the technical sub-score ladders.
Field names follow the dataframe columns: `ma5` is `latest['MA5']`,
`prevMa5` is `df.iloc[-2]['MA5']`, `ma20Back5` is `df.iloc[-5]['MA20']`,
`obvBack5` is `df.iloc[-5]['OBV']`, `closeBack5` is `df.iloc[-5]['Close']`,
`volTrend` is `recent['Volume'].mean() / df['Volume'].tail(20).mean()`. -/
structure TechData where
  dataLen : ℕ
  ma5 : ℚ
  ma20 : ℚ
  ma60 : ℚ
  prevMa5 : ℚ
  prevMa20 : ℚ
  close : ℚ
  ma20Back5 : ℚ
  rsi : ℚ
  macd : ℚ
  macdSignal : ℚ
  prevMacd : ℚ
  prevMacdSignal : ℚ
  macdHist : ℚ
  prevMacdHist : ℚ
  bbPos : ℚ
  bbWidth : ℚ
  prevBbWidth : ℚ
  avgBbWidth : ℚ
  bbMiddle : ℚ
  prevBbMiddle : ℚ
  volRatio : ℚ
  volTrend : ℚ
  obv : ℚ
  obvBack5 : ℚ
  closeBack5 : ℚ

/-- Score accumulated by `analyze_price_trend` (`technical_agent.py` lines
85-150) before the final `min(score, 25)`.  The data-length guard returns 12
directly (without passing through the clamp); for uniformity the raw value
is 12 there as well. -/
def techPriceTrendRaw (d : TechData) : ℤ :=
  if d.dataLen < 60 then 12 else
  let maScore : ℤ :=
    if d.ma5 > d.ma20 ∧ d.ma20 > d.ma60 then 10
    else if d.ma5 > d.ma20 then 6
    else if d.ma5 < d.ma20 ∧ d.ma20 < d.ma60 then 2
    else 0
  let goldenBonus : ℤ :=
    if d.ma5 > d.ma20 ∧ d.prevMa5 ≤ d.prevMa20 then 3 else 0
  let priceScore : ℤ :=
    (if d.close > d.ma5 then 3 else 0) +
    (if d.close > d.ma20 then 3 else 0) +
    (if d.close > d.ma60 then 2 else 0)
  let ma20Slope : ℚ := (d.ma20 - d.ma20Back5) / d.ma20 * 100
  let slopeScore : ℤ :=
    if ma20Slope > 2 then 7
    else if ma20Slope > 1/2 then 4
    else if ma20Slope > -(1/2) then 2
    else 0
  maScore + goldenBonus + priceScore + slopeScore

/-- `analyze_price_trend` result: `min(score, 25)` (the early data-length
return is 12, unchanged by the clamp). -/
def techPriceTrend (d : TechData) : ℤ :=
  min (techPriceTrendRaw d) 25

/-- Score accumulated by `analyze_momentum` (`technical_agent.py` lines
152-217) before the final `min(score, 25)`. -/
def techMomentumRaw (d : TechData) : ℤ :=
  if d.dataLen < 26 then 12 else
  let rsiScore : ℤ :=
    if 50 < d.rsi ∧ d.rsi < 70 then 8
    else if d.rsi ≥ 70 then 4
    else if d.rsi > 30 then 4
    else 0
  let macdBull := d.macd > d.macdSignal
  let macdCross := macdBull ∧ d.prevMacd ≤ d.prevMacdSignal
  let macdPositive := d.macd > 0
  let macdScore : ℤ :=
    if macdCross then 10
    else if macdBull ∧ macdPositive then 8
    else if macdBull then 5
    else if macdPositive then 3
    else 0
  let histGrowing := d.macdHist > d.prevMacdHist
  let histScore : ℤ :=
    if histGrowing ∧ d.macdHist > 0 then 7
    else if histGrowing then 4
    else if d.macdHist > 0 then 3
    else 0
  rsiScore + macdScore + histScore

/-- `analyze_momentum` result: `min(score, 25)`. -/
def techMomentum (d : TechData) : ℤ :=
  min (techMomentumRaw d) 25

/-- Score accumulated by `analyze_bollinger` (`technical_agent.py` lines
219-291) before the final `min(score, 25)`. -/
def techBollingerRaw (d : TechData) : ℤ :=
  if d.dataLen < 20 then 12 else
  let posScore : ℤ :=
    if 2/5 ≤ d.bbPos ∧ d.bbPos ≤ 3/5 then 10
    else if 1/5 ≤ d.bbPos ∧ d.bbPos < 2/5 then 8
    else if 3/5 < d.bbPos ∧ d.bbPos ≤ 4/5 then 7
    else if d.bbPos > 4/5 then 4
    else 3
  let isSqueeze := d.bbWidth < d.avgBbWidth * (3/5)
  let wasSqueeze := d.prevBbWidth < d.avgBbWidth * (3/5)
  let widthScore : ℤ :=
    if isSqueeze ∧ ¬ wasSqueeze then 8
    else if isSqueeze then 6
    else if d.bbWidth > d.avgBbWidth * (3/2) then 4
    else 5
  let bbTrend := d.bbMiddle > d.prevBbMiddle
  let trendScore : ℤ :=
    if bbTrend ∧ d.bbPos > 1/2 then 7
    else if bbTrend then 5
    else if d.bbPos > 1/2 then 3
    else 0
  posScore + widthScore + trendScore

/-- `analyze_bollinger` result: `min(score, 25)`. -/
def techBollinger (d : TechData) : ℤ :=
  min (techBollingerRaw d) 25

/-- Score accumulated by `analyze_volume` (`technical_agent.py` lines
293-360) before the final `min(score, 25)`. -/
def techVolumeRaw (d : TechData) : ℤ :=
  if d.dataLen < 20 then 12 else
  let ratioScore : ℤ :=
    if d.volRatio ≥ 2 then 10
    else if d.volRatio ≥ 3/2 then 8
    else if d.volRatio ≥ 1 then 6
    else if d.volRatio ≥ 7/10 then 3
    else 0
  let trendScore : ℤ :=
    if d.volTrend > 13/10 then 8
    else if d.volTrend > 11/10 then 5
    else if d.volTrend > 9/10 then 3
    else 0
  let obvTrend := d.obv > d.obvBack5
  let priceTrend := d.close > d.closeBack5
  let obvScore : ℤ :=
    if obvTrend ∧ priceTrend then 7
    else if obvTrend then 5
    else if priceTrend then 3
    else 0
  ratioScore + trendScore + obvScore

/-- `analyze_volume` result: `min(score, 25)`. -/
def techVolume (d : TechData) : ℤ :=
  min (techVolumeRaw d) 25

/-- Result record of `TechnicalAnalysisAgent.analyze` (lines 362-450),
restricted to the fields the pipeline consumes: the timestamp written into
`analysis_date` and the DimensionScore proper (breakdown, total,
recommendation). -/
structure TechResult where
  analysisDate : ℕ
  priceTrend : ℤ
  momentum : ℤ
  bollinger : ℤ
  volume : ℤ
  totalScore : ℤ
  recommendation : Rec
  deriving DecidableEq

/-- `TechnicalAnalysisAgent.analyze` on already-fetched data: runs the four
sub-analyses, sums them into `total_score`, derives the recommendation, and
stamps `analysis_date` with the current time (`now`). -/
def techAnalyze (d : TechData) (now : ℕ) : TechResult :=
  let p := techPriceTrend d
  let m := techMomentum d
  let b := techBollinger d
  let v := techVolume d
  { analysisDate := now
    priceTrend := p
    momentum := m
    bollinger := b
    volume := v
    totalScore := p + m + b + v
    recommendation := techRecommendation (p + m + b + v) }

/-- The DimensionScore part of a technical result (everything except the
timestamp). -/
def TechResult.dimensionScore (r : TechResult) : ℤ × ℤ × ℤ × ℤ × ℤ × Rec :=
  (r.priceTrend, r.momentum, r.bollinger, r.volume, r.totalScore,
   r.recommendation)

/-! ## Quantitative scorer (`quant_agent.py`)

`QuantAnalysisAgent` reads every numeric input through `get_metric`, which
coalesces an absent key, a stored `None` and a stored NaN to the given
default.  A stored value is modelled as `PyVal` (either Python `None` or a
number); an info-dict entry as `Option PyVal` (`Option.none` = key absent).
NaN is not representable in `ℚ`; the NaN guard collapses to the `None`
guard. -/

/-- A value stored in a Python info dict: `None` or a number. -/
inductive PyVal where
  | none
  | num (q : ℚ)
  deriving DecidableEq

/-- The yfinance `info` fields read by `QuantAnalysisAgent`. -/
structure QuantInfo where
  returnOnEquity : Option PyVal
  returnOnAssets : Option PyVal
  operatingMargins : Option PyVal
  profitMargins : Option PyVal
  revenueGrowth : Option PyVal
  earningsGrowth : Option PyVal
  earningsQuarterlyGrowth : Option PyVal
  debtToEquity : Option PyVal
  currentRatio : Option PyVal
  operatingCashflow : Option PyVal
  totalRevenue : Option PyVal
  trailingPE : Option PyVal
  forwardPE : Option PyVal
  priceToBook : Option PyVal
  pegRatio : Option PyVal
  enterpriseToEbitda : Option PyVal

/-- `QuantAnalysisAgent.get_metric` (`quant_agent.py` lines 48-53):
`info.get(key, default)`, then `None` (or NaN) falls back to the default. -/
def getMetric (entry : Option PyVal) (default : ℚ) : ℚ :=
  match entry with
  | .none => default
  | .some .none => default
  | .some (.num v) => v

/-- The ROE band of `analyze_profitability` (lines 64-79). -/
def roeLadder (roe : ℚ) : ℤ :=
  if roe ≥ 20 then 8 else if roe ≥ 15 then 6 else if roe ≥ 10 then 4
  else if roe > 0 then 2 else 0

/-- The ROA band of `analyze_profitability` (lines 83-94). -/
def roaLadder (roa : ℚ) : ℤ :=
  if roa ≥ 10 then 5 else if roa ≥ 5 then 3 else if roa > 0 then 1 else 0

/-- The operating-margin band of `analyze_profitability` (lines 98-112). -/
def opMarginLadder (opMargin : ℚ) : ℤ :=
  if opMargin ≥ 20 then 6 else if opMargin ≥ 10 then 4
  else if opMargin ≥ 5 then 2 else if opMargin > 0 then 1 else 0

/-- The net-margin band of `analyze_profitability` (lines 116-129). -/
def netMarginLadder (netMargin : ℚ) : ℤ :=
  if netMargin ≥ 15 then 6 else if netMargin ≥ 8 then 4
  else if netMargin ≥ 3 then 2 else if netMargin > 0 then 1 else 0

/-- `analyze_profitability` (`quant_agent.py` lines 55-133): ROE, ROA,
operating margin and net margin ladders, then `min(score, 25)`. -/
def quantProfitability (i : QuantInfo) : ℤ :=
  min (roeLadder (getMetric i.returnOnEquity 0 * 100)
    + roaLadder (getMetric i.returnOnAssets 0 * 100)
    + opMarginLadder (getMetric i.operatingMargins 0 * 100)
    + netMarginLadder (getMetric i.profitMargins 0 * 100)) 25

/-- The revenue-growth band of `analyze_growth` (lines 144-158). -/
def revGrowthLadder (revenueGrowth : ℚ) : ℤ :=
  if revenueGrowth ≥ 30 then 10 else if revenueGrowth ≥ 15 then 8
  else if revenueGrowth ≥ 5 then 5 else if revenueGrowth > 0 then 2 else 0

/-- The earnings-growth band of `analyze_growth` (lines 162-175). -/
def earnGrowthLadder (earningsGrowth : ℚ) : ℤ :=
  if earningsGrowth ≥ 30 then 8 else if earningsGrowth ≥ 15 then 6
  else if earningsGrowth ≥ 5 then 3 else if earningsGrowth > 0 then 1 else 0

/-- The quarterly-EPS-growth band of `analyze_growth` (lines 179-190). -/
def epsGrowthLadder (epsGrowth : ℚ) : ℤ :=
  if epsGrowth ≥ 25 then 7 else if epsGrowth ≥ 10 then 5
  else if epsGrowth > 0 then 2 else 0

/-- `analyze_growth` (`quant_agent.py` lines 135-194): revenue, earnings and
quarterly-EPS growth ladders, then `min(score, 25)`. -/
def quantGrowth (i : QuantInfo) : ℤ :=
  min (revGrowthLadder (getMetric i.revenueGrowth 0 * 100)
    + earnGrowthLadder (getMetric i.earningsGrowth 0 * 100)
    + epsGrowthLadder (getMetric i.earningsQuarterlyGrowth 0 * 100)) 25

/-- The debt-to-equity band of `analyze_stability` (lines 206-220,
lower is better). -/
def debtLadder (debtToEquity : ℚ) : ℤ :=
  if debtToEquity ≤ 50 then 10 else if debtToEquity ≤ 100 then 7
  else if debtToEquity ≤ 150 then 4 else if debtToEquity ≤ 200 then 2
  else 0

/-- The current-ratio band of `analyze_stability` (lines 225-235). -/
def currentRatioLadder (currentRatio : ℚ) : ℤ :=
  if currentRatio ≥ 2 then 8 else if currentRatio ≥ 3/2 then 6
  else if currentRatio ≥ 1 then 3 else 0

/-- The cash-flow-margin band of `analyze_stability` (lines 244-253). -/
def cfMarginLadder (cfMargin : ℚ) : ℤ :=
  if cfMargin ≥ 15 then 7 else if cfMargin ≥ 8 then 5
  else if cfMargin > 0 then 2 else 0

/-- `analyze_stability` (`quant_agent.py` lines 196-257): debt-to-equity
(default 100), current ratio (default 1.0) and cash-flow-margin ladders,
then `min(score, 25)`.  `cf_margin` is `operating_cf / total_revenue * 100`
guarded by `total_revenue > 0`, else 0. -/
def quantStability (i : QuantInfo) : ℤ :=
  let operatingCF := getMetric i.operatingCashflow 0
  let totalRevenue := getMetric i.totalRevenue 1
  let cfMargin : ℚ :=
    if totalRevenue > 0 then operatingCF / totalRevenue * 100 else 0
  min (debtLadder (getMetric i.debtToEquity 100)
    + currentRatioLadder (getMetric i.currentRatio 1)
    + cfMarginLadder cfMargin) 25

/-- The trailing-PER band of `analyze_valuation` (lines 269-285). -/
def peLadder (peRatio : ℚ) : ℤ :=
  if 8 ≤ peRatio ∧ peRatio ≤ 15 then 8 else if peRatio < 8 then 6
  else if peRatio ≤ 20 then 5 else if peRatio ≤ 30 then 2 else 0

/-- The PBR band of `analyze_valuation` (lines 291-304). -/
def pbLadder (pbRatio : ℚ) : ℤ :=
  if pbRatio ≤ 1 then 6 else if pbRatio ≤ 3/2 then 5
  else if pbRatio ≤ 5/2 then 3 else if pbRatio ≤ 4 then 1 else 0

/-- The PEG band of `analyze_valuation` (lines 309-319). -/
def pegLadder (peg : ℚ) : ℤ :=
  if 0 < peg ∧ peg ≤ 1 then 6 else if peg ≤ 3/2 then 4
  else if peg ≤ 2 then 2 else 0

/-- The EV/EBITDA band of `analyze_valuation` (lines 324-334). -/
def evLadder (evEbitda : ℚ) : ℤ :=
  if evEbitda ≤ 6 then 5 else if evEbitda ≤ 10 then 4
  else if evEbitda ≤ 15 then 2 else 0

/-- `analyze_valuation` (`quant_agent.py` lines 259-338): PER (default 20),
PBR (default 2), PEG (default 2) and EV/EBITDA (default 12) ladders, then
`min(score, 25)`.  (`forward_pe` is read but contributes no points.) -/
def quantValuation (i : QuantInfo) : ℤ :=
  min (peLadder (getMetric i.trailingPE 20)
    + pbLadder (getMetric i.priceToBook 2)
    + pegLadder (getMetric i.pegRatio 2)
    + evLadder (getMetric i.enterpriseToEbitda 12)) 25

/-- Result record of `QuantAnalysisAgent.analyze` (lines 357-456),
restricted to the timestamp and the DimensionScore fields. -/
structure QuantResult where
  analysisDate : ℕ
  profitability : ℤ
  growth : ℤ
  stability : ℤ
  valuation : ℤ
  totalScore : ℤ
  recommendation : Rec
  deriving DecidableEq

/-- `QuantAnalysisAgent.analyze` on already-fetched info. -/
def quantAnalyze (i : QuantInfo) (now : ℕ) : QuantResult :=
  let p := quantProfitability i
  let g := quantGrowth i
  let s := quantStability i
  let v := quantValuation i
  { analysisDate := now
    profitability := p
    growth := g
    stability := s
    valuation := v
    totalScore := p + g + s + v
    recommendation := quantRecommendation (p + g + s + v) }

/-- The DimensionScore part of a quant result. -/
def QuantResult.dimensionScore (r : QuantResult) : ℤ × ℤ × ℤ × ℤ × ℤ × Rec :=
  (r.profitability, r.growth, r.stability, r.valuation, r.totalScore,
   r.recommendation)

/-- The info dict of a symbol for which yfinance returned no fundamental
field at all (`self.info == {}`). -/
def emptyQuantInfo : QuantInfo :=
  { returnOnEquity := .none
    returnOnAssets := .none
    operatingMargins := .none
    profitMargins := .none
    revenueGrowth := .none
    earningsGrowth := .none
    earningsQuarterlyGrowth := .none
    debtToEquity := .none
    currentRatio := .none
    operatingCashflow := .none
    totalRevenue := .none
    trailingPE := .none
    forwardPE := .none
    priceToBook := .none
    pegRatio := .none
    enterpriseToEbitda := .none }

/-! ## Qualitative scorer (`qualitative_agent.py`)

`QualitativeAnalysisAgent.get_info` (lines 38-40) is a bare
`self.info.get(key, default)`: an absent key falls back to the default, but
a key stored with value `None` is returned as `None` and flows into the
subsequent arithmetic unprotected.  The sanitized model below (`QualInfo`,
fields `Option ℚ` = absent / numeric) covers every info dict with no
stored-`None` entries; the raw model (`QualInfoRaw`, used for claim C5)
keeps the stored-`None` case.  The membership tests on the `sector` and
`industry` strings are modelled as the Booleans they evaluate to. -/

/-- Numeric info fields read by the qualitative scorer (`Option.none` = key
absent) and the Boolean outcomes of its sector/industry string tests. -/
structure QualInfo where
  marketCap : Option ℚ
  grossMargins : Option ℚ
  revenuePerShare : Option ℚ
  dividendYield : Option ℚ
  payoutRatio : Option ℚ
  heldPercentInsiders : Option ℚ
  heldPercentInstitutions : Option ℚ
  fullTimeEmployees : Option ℚ
  beta : Option ℚ
  debtToEquity : Option ℚ
  revenueGrowth : Option ℚ
  currentRatio : Option ℚ
  /-- sector in the Conglomerates / Industrials / Technology list -/
  sectorDiversified : Bool
  /-- lowercased industry contains semiconductor or electronics -/
  industrySemiElec : Bool
  /-- lowercased industry contains bank or financial -/
  industryBankFin : Bool
  /-- sector in the Technology / Healthcare / Communication Services list -/
  sectorGrowth : Bool
  /-- sector in the Financial Services / Consumer Cyclical list -/
  sectorStable : Bool
  /-- sector in the Consumer Defensive / Utilities list -/
  sectorDefensive : Bool
  /-- industry contains one of Semiconductors / Software / Internet
  Content / Biotechnology -/
  industryHighTech : Bool
  /-- lowercased industry contains electronics -/
  industryElectronics : Bool
  /-- lowercased industry contains bank -/
  industryBank : Bool

/-- `get_info(key, default)` on an info dict with no stored-`None`
entries. -/
def getInfoD (entry : Option ℚ) (default : ℚ) : ℚ :=
  entry.getD default

/-- `analyze_business_model` (`qualitative_agent.py` lines 42-108): market
cap, diversification, gross margin and R&D ladders, then `min(score, 25)`. -/
def qualBusinessModel (i : QualInfo) : ℤ :=
  let marketCap := getInfoD i.marketCap 0
  let capScore : ℤ :=
    if marketCap ≥ 100000000000000 then 8
    else if marketCap ≥ 50000000000000 then 7
    else if marketCap ≥ 10000000000000 then 5
    else if marketCap ≥ 1000000000000 then 3
    else 1
  let sectorScore : ℤ :=
    if i.sectorDiversified then 6
    else if i.industrySemiElec then 5
    else if i.industryBankFin then 5
    else 3
  let grossMargin := getInfoD i.grossMargins 0 * 100
  let marginScore : ℤ :=
    if grossMargin ≥ 50 then 7 else if grossMargin ≥ 30 then 5
    else if grossMargin ≥ 15 then 3 else 1
  let rdRatio := getInfoD i.revenuePerShare 0
  let rdScore : ℤ := if rdRatio > 0 then 2 else 0
  min (capScore + sectorScore + marginScore + rdScore) 25

/-- `analyze_management` (`qualitative_agent.py` lines 110-171): dividend
yield, payout ratio, ownership and employee-count ladders, then
`min(score, 25)`.  (`dividend_rate` is read but contributes no points.) -/
def qualManagement (i : QualInfo) : ℤ :=
  let dividendYield := getInfoD i.dividendYield 0 * 100
  let divScore : ℤ :=
    if dividendYield ≥ 3 then 10 else if dividendYield ≥ 2 then 8
    else if dividendYield ≥ 1 then 5 else if dividendYield > 0 then 3
    else 0
  let payoutRatio := getInfoD i.payoutRatio 0 * 100
  let payoutScore : ℤ :=
    if 0 < payoutRatio ∧ payoutRatio < 60 then 5
    else if payoutRatio ≥ 60 then 3 else 0
  let insiders := getInfoD i.heldPercentInsiders 0 * 100
  let insiderScore : ℤ :=
    if 10 ≤ insiders ∧ insiders ≤ 40 then 3 else 0
  let institutions := getInfoD i.heldPercentInstitutions 0 * 100
  let instScore : ℤ := if institutions ≥ 30 then 3 else 0
  let employees := getInfoD i.fullTimeEmployees 0
  let empScore : ℤ :=
    if employees > 10000 then 4 else if employees > 1000 then 2 else 0
  min (divScore + payoutScore + insiderScore + instScore + empScore) 25

/-- `analyze_industry_outlook` (`qualitative_agent.py` lines 173-233):
sector-growth, technology-level and beta ladders (beta defaults to 1.0),
then `min(score, 25)`. -/
def qualIndustryOutlook (i : QualInfo) : ℤ :=
  let sectorScore : ℤ :=
    if i.sectorGrowth then 10 else if i.sectorStable then 7
    else if i.sectorDefensive then 5 else 4
  let techScore : ℤ :=
    if i.industryHighTech then 8 else if i.industryElectronics then 6
    else if i.industryBank then 4 else 3
  let beta := getInfoD i.beta 1
  let betaScore : ℤ :=
    if beta ≥ 6/5 then 7 else if beta ≥ 9/10 then 5
    else if beta ≥ 7/10 then 4 else 2
  min (sectorScore + techScore + betaScore) 25

/-- `analyze_risk_factors` (`qualitative_agent.py` lines 235-291): starts at
the maximum 25 and subtracts beta, leverage, revenue-decline and liquidity
penalties, then `max(score, 0)`. -/
def qualRiskFactors (i : QualInfo) : ℤ :=
  let beta := getInfoD i.beta 1
  let betaPenalty : ℤ :=
    if beta ≥ 3/2 then 8 else if beta ≥ 6/5 then 5
    else if beta ≥ 1 then 2 else 0
  let debtToEquity := getInfoD i.debtToEquity 0
  let debtPenalty : ℤ :=
    if debtToEquity ≥ 200 then 7 else if debtToEquity ≥ 100 then 4 else 0
  let revenueGrowth := getInfoD i.revenueGrowth 0
  let revenuePenalty : ℤ :=
    if revenueGrowth < -(1/10) then 6 else if revenueGrowth < 0 then 3
    else 0
  let currentRatio := getInfoD i.currentRatio 1
  let liquidityPenalty : ℤ :=
    if currentRatio < 4/5 then 4 else if currentRatio < 1 then 2 else 0
  max (25 - betaPenalty - debtPenalty - revenuePenalty - liquidityPenalty) 0

/-- Result record of `QualitativeAnalysisAgent.analyze` (lines 306-396),
restricted to the timestamp and the DimensionScore fields. -/
structure QualResult where
  analysisDate : ℕ
  businessModel : ℤ
  management : ℤ
  industryOutlook : ℤ
  riskFactors : ℤ
  totalScore : ℤ
  recommendation : Rec
  deriving DecidableEq

/-- `QualitativeAnalysisAgent.analyze` on already-fetched info. -/
def qualAnalyze (i : QualInfo) (now : ℕ) : QualResult :=
  let b := qualBusinessModel i
  let m := qualManagement i
  let o := qualIndustryOutlook i
  let r := qualRiskFactors i
  { analysisDate := now
    businessModel := b
    management := m
    industryOutlook := o
    riskFactors := r
    totalScore := b + m + o + r
    recommendation := qualRecommendation (b + m + o + r) }

/-- The DimensionScore part of a qualitative result. -/
def QualResult.dimensionScore (r : QualResult) : ℤ × ℤ × ℤ × ℤ × ℤ × Rec :=
  (r.businessModel, r.management, r.industryOutlook, r.riskFactors,
   r.totalScore, r.recommendation)

/-! ### Raw model of `analyze_business_model` (claim C5)

`get_info` does not guard stored `None`: `self.info.get('grossMargins', 0)`
returns `None` when the key is stored with value `None`, and the subsequent
`* 100` (or an ordered comparison such as `market_cap >= ...`) raises a
TypeError.  The raw model returns `Except Unit ℤ`, erroring exactly where
Python raises. -/

/-- Numeric fields of the info dict as actually stored (`Option.none` = key
absent, `some PyVal.none` = key present with value `None`), plus the
string-test Booleans. -/
structure QualInfoRaw where
  marketCap : Option PyVal
  grossMargins : Option PyVal
  revenuePerShare : Option PyVal
  sectorDiversified : Bool
  industrySemiElec : Bool
  industryBankFin : Bool

/-- `get_info(key, default)` as written: dict lookup with default, no
`None` guard. -/
def getInfoRaw (entry : Option PyVal) (default : PyVal) : PyVal :=
  entry.getD default

/-- Using a Python value as a number: `None` raises a TypeError. -/
def pyNum (v : PyVal) : Except Unit ℚ :=
  match v with
  | .none => .error ()
  | .num q => .ok q

/-- `analyze_business_model` with the raw `get_info` semantics: reads are
evaluated in source order and the first `None` that reaches an arithmetic
or ordered comparison raises. -/
def qualBusinessModelRaw (i : QualInfoRaw) : Except Unit ℤ := do
  let marketCap ← pyNum (getInfoRaw i.marketCap (.num 0))
  let capScore : ℤ :=
    if marketCap ≥ 100000000000000 then 8
    else if marketCap ≥ 50000000000000 then 7
    else if marketCap ≥ 10000000000000 then 5
    else if marketCap ≥ 1000000000000 then 3
    else 1
  let sectorScore : ℤ :=
    if i.sectorDiversified then 6
    else if i.industrySemiElec then 5
    else if i.industryBankFin then 5
    else 3
  let grossMargin0 ← pyNum (getInfoRaw i.grossMargins (.num 0))
  let grossMargin := grossMargin0 * 100
  let marginScore : ℤ :=
    if grossMargin ≥ 50 then 7 else if grossMargin ≥ 30 then 5
    else if grossMargin ≥ 15 then 3 else 1
  let rdRatio ← pyNum (getInfoRaw i.revenuePerShare (.num 0))
  let rdScore : ℤ := if rdRatio > 0 then 2 else 0
  return min (capScore + sectorScore + marginScore + rdScore) 25

/-- Reading a raw entry as the sanitized model does (meaningful when the
entry is not a stored `None`). -/
def rawToOpt (entry : Option PyVal) : Option ℚ :=
  match entry with
  | .none => Option.none
  | .some .none => Option.none
  | .some (.num q) => .some q

/-! ## News sentiment scorer (`news_agent.py`)

The four sub-scores of `NewsSentimentAgent` read the news list only through
a handful of statistics (per-item keyword classifications over the first 20
items, keyword event counts over the first 15 titles, list length) and the
price series only through the derived return/volume/volatility scalars.
`NewsData` records exactly those statistics. -/

/-- The statistics the news sub-score ladders read.  `newsCount` is
`len(self.news)`; `posCount`/`negCount`/`neutCount` are the sentiment
tallies over the first 20 items (their sum is the loop's `total`);
`priceLen` is `len(self.price_data)` (0 when `None`); the event counts are
over the first 15 titles; `volumeChange` is the percentage change of the
recent 5-day mean volume versus the previous 5 days. -/
structure NewsData where
  newsCount : ℕ
  posCount : ℕ
  negCount : ℕ
  neutCount : ℕ
  priceLen : ℕ
  volumeRatio : ℚ
  volatility : ℚ
  earningsEvents : ℕ
  offeringEvents : ℕ
  lawsuitEvents : ℕ
  executiveEvents : ℕ
  returns5d : ℚ
  returns20d : ℚ
  volumeChange : ℚ

/-- `analyze_news_sentiment` (`news_agent.py` lines 46-113): early return 12
with no news, else the positive-ratio ladder, then `min(score, 25)`. -/
def newsSentiment (n : NewsData) : ℤ :=
  if n.newsCount = 0 then 12 else
  let total : ℕ := n.posCount + n.negCount + n.neutCount
  let score : ℤ :=
    if 0 < total then
      let positiveRatio : ℚ := (n.posCount : ℚ) / (total : ℚ)
      if positiveRatio ≥ 1/2 then 25
      else if positiveRatio ≥ 2/5 then 20
      else if positiveRatio ≥ 3/10 then 15
      else if positiveRatio ≥ 1/5 then 8
      else 3
    else 0
  min score 25

/-- `analyze_social_media` (`news_agent.py` lines 115-166): early return 12
with under 5 days of prices, else the volume-interest and volatility
ladders, then `min(score, 25)`. -/
def newsSocialMedia (n : NewsData) : ℤ :=
  if n.priceLen < 5 then 12 else
  let volumeScore : ℤ :=
    if n.volumeRatio ≥ 2 then 15 else if n.volumeRatio ≥ 3/2 then 12
    else if n.volumeRatio ≥ 1 then 8 else 4
  let volatilityScore : ℤ :=
    if n.volatility ≥ 5 then 10 else if n.volatility ≥ 3 then 7
    else if n.volatility ≥ 1 then 5 else 2
  min (volumeScore + volatilityScore) 25

/-- `analyze_event_risk` (`news_agent.py` lines 168-235): starts at the
maximum 25 and subtracts per detected event category, then
`max(score, 0)`.  (Dividend and meeting events only produce signals.) -/
def newsEventRisk (n : NewsData) : ℤ :=
  let earningsPenalty : ℤ := if n.earningsEvents ≥ 2 then 3 else 0
  let offeringPenalty : ℤ :=
    if n.offeringEvents ≥ 2 then 8 else if n.offeringEvents > 0 then 3
    else 0
  let lawsuitPenalty : ℤ :=
    if n.lawsuitEvents ≥ 2 then 10 else if n.lawsuitEvents > 0 then 5
    else 0
  let executivePenalty : ℤ := if n.executiveEvents ≥ 2 then 4 else 0
  max (25 - earningsPenalty - offeringPenalty - lawsuitPenalty
    - executivePenalty) 0

/-- `analyze_momentum_signals` (`news_agent.py` lines 237-301): early return
12 with under 10 days of prices, else the 5-day return, 20-day return and
volume-confirmation ladders, then `min(score, 25)`. -/
def newsMomentumSignals (n : NewsData) : ℤ :=
  if n.priceLen < 10 then 12 else
  let shortScore : ℤ :=
    if n.returns5d ≥ 10 then 10 else if n.returns5d ≥ 5 then 8
    else if n.returns5d ≥ 0 then 5 else if n.returns5d ≥ -5 then 2
    else 0
  let midScore : ℤ :=
    if n.returns20d ≥ 20 then 8 else if n.returns20d ≥ 10 then 6
    else if n.returns20d ≥ 0 then 4 else if n.returns20d ≥ -10 then 2
    else 0
  let volumeScore : ℤ :=
    if n.volumeChange ≥ 50 ∧ n.returns5d > 0 then 7
    else if n.volumeChange ≥ 20 ∧ n.returns5d > 0 then 5
    else if n.volumeChange ≥ 0 then 3
    else if n.returns5d < 0 then 1
    else 0
  min (shortScore + midScore + volumeScore) 25

/-- Result record of `NewsSentimentAgent.analyze` (lines 318-407),
restricted to the timestamp and the DimensionScore fields. -/
structure NewsResult where
  analysisDate : ℕ
  sentiment : ℤ
  socialMedia : ℤ
  eventRisk : ℤ
  momentumSignals : ℤ
  totalScore : ℤ
  recommendation : Rec
  deriving DecidableEq

/-- `NewsSentimentAgent.analyze` on already-fetched data. -/
def newsAnalyze (n : NewsData) (now : ℕ) : NewsResult :=
  let s := newsSentiment n
  let so := newsSocialMedia n
  let e := newsEventRisk n
  let m := newsMomentumSignals n
  { analysisDate := now
    sentiment := s
    socialMedia := so
    eventRisk := e
    momentumSignals := m
    totalScore := s + so + e + m
    recommendation := newsRecommendation (s + so + e + m) }

/-- The DimensionScore part of a news result. -/
def NewsResult.dimensionScore (r : NewsResult) : ℤ × ℤ × ℤ × ℤ × ℤ × Rec :=
  (r.sentiment, r.socialMedia, r.eventRisk, r.momentumSignals, r.totalScore,
   r.recommendation)

/-! ## Rounding

The aggregation code stores `round(avg_score, 1)`.  Python rounds
half-to-even; the averages arising here are quarters of integers, whose
floats are exact, so exact half-to-even rounding on `ℚ` models `round`
faithfully on every value this code produces. -/

/-- Round a rational to the nearest integer, ties to even (Python
`round(x)`). -/
def roundHalfEven (x : ℚ) : ℤ :=
  let f := ⌊x⌋
  let r := x - f
  if r < 1/2 then f
  else if r > 1/2 then f + 1
  else if f % 2 = 0 then f else f + 1

/-- Python `round(x, 1)`. -/
def pyRound1 (x : ℚ) : ℚ :=
  (roundHalfEven (10 * x) : ℚ) / 10

/-! ## Level-1 aggregation of `run_all_level1_agents`
(`test_level1_all.py` lines 19-129)

Each agent entry in the `results['agents']` dict is built with
`result.get('total_score', 0)` and `result.get('recommendation', 'HOLD')`:
a failed agent (whose `analyze` returned an error dict without those keys)
contributes score 0 and recommendation HOLD.  A per-agent outcome is
therefore `Option AgentOut` (`Option.none` = the agent failed). -/

/-- The two fields of an agent's analyze result that the aggregators
consume. -/
structure AgentOut where
  totalScore : ℤ
  recommendation : Rec
  deriving DecidableEq

/-- `result.get('total_score', 0)` over a possibly-failed agent result. -/
def dictScore (r : Option AgentOut) : ℤ :=
  match r with
  | .some a => a.totalScore
  | .none => 0

/-- `result.get('recommendation', 'HOLD')` over a possibly-failed agent
result. -/
def dictRec (r : Option AgentOut) : Rec :=
  match r with
  | .some a => a.recommendation
  | .none => .hold

/-- The `results['summary']` dict of `run_all_level1_agents` (lines
106-113). -/
structure Level1Summary where
  averageScore : ℚ
  consensus : Consensus
  buyVotes : ℕ
  holdVotes : ℕ
  sellVotes : ℕ
  totalAgents : ℕ
  deriving DecidableEq

/-- The summary computation of `run_all_level1_agents` (lines 87-113):
scores and recommendations are collected from all four agent entries,
`avg_score = sum(scores) / len(scores) if scores else 0`, the consensus is
the full priority ladder, and the vote counts are plain `list.count`. -/
def runAllLevel1Summary (tech quant qual news : Option AgentOut) :
    Level1Summary :=
  let scores : List ℤ :=
    [dictScore tech, dictScore quant, dictScore qual, dictScore news]
  let avgScore : ℚ :=
    if scores.isEmpty then 0 else (scores.sum : ℚ) / (scores.length : ℚ)
  let recs : List Rec :=
    [dictRec tech, dictRec quant, dictRec qual, dictRec news]
  { averageScore := pyRound1 avgScore
    consensus := consensusLevel1All recs
    buyVotes := countRec .buy recs
    holdVotes := countRec .hold recs
    sellVotes := countRec .sell recs
    totalAgents := 4 }

/-! ## Level-3 decision rule (claim C6)

The Portfolio Manager agent PM_001 is configured in
`investment_agent_group.py` lines 303-354.  Its decision process (prompt
template lines 311-318) fixes the composite blend, weighted
L1 50% + L2 30% + PM judgment 20%, and the Long/Neutral/Short bands.  The
definitions below transcribe that rule. -/

/-- Final Level-3 classification values. -/
inductive PMClass where
  | long
  | neutral
  | short
  deriving DecidableEq

/-- The PM_001 composite: `0.5*L1 + 0.3*L2 + 0.2*judgment`
(`investment_agent_group.py` line 313). -/
def pmComposite (level1Avg level2Avg pmJudgment : ℚ) : ℚ :=
  (5/10) * level1Avg + (3/10) * level2Avg + (2/10) * pmJudgment

/-- The PM_001 bands (`investment_agent_group.py` lines 315-318):
Long if composite >= 70, Neutral if 40 < composite < 70, Short if
composite <= 40. -/
def pmClassify (composite : ℚ) : PMClass :=
  if composite ≥ 70 then .long
  else if composite > 40 then .neutral
  else .short

/-! ## Daily batch runner (`daily_level1_batch.py`, claim C7)

`analyze_stock` (lines 46-83) runs the four agents inside one `try` block;
any exception sets `status = 'error'` on that symbol's result and is not
re-raised.  `main` (lines 85-117) maps `analyze_stock` over the stock list
and writes a summary holding every per-symbol result.  An agent invocation
is modelled by its observable outcome: it raised, it returned an error dict
(no `total_score`/`recommendation` keys), or it returned a score. -/

/-- Outcome of one agent's `analyze()` call inside `analyze_stock`. -/
inductive AgentCall where
  | raises
  | errDict
  | ok (a : AgentOut)
  deriving DecidableEq

/-- The `(score, rec)` entry that `analyze_stock` builds from one agent
call, or the exception it lets fly into the enclosing `try`. -/
def callResult (c : AgentCall) : Except Unit (ℤ × Rec) :=
  match c with
  | .raises => .error ()
  | .errDict => .ok (0, .hold)
  | .ok a => .ok (a.totalScore, a.recommendation)

/-- The four agent outcomes for one symbol. -/
structure StockBeh where
  tech : AgentCall
  quant : AgentCall
  qual : AgentCall
  news : AgentCall
  deriving DecidableEq

/-- Per-symbol terminal status. -/
inductive Status where
  | success
  | error
  deriving DecidableEq, BEq

/-- The per-symbol result dict of `analyze_stock`, restricted to the fields
the batch summary reports (`avg_score` is absent on error). -/
structure StockResult where
  symbol : String
  status : Status
  avgScore : Option ℚ
  deriving DecidableEq

/-- `analyze_stock` (`daily_level1_batch.py` lines 46-83): the four agents
run in sequence inside one `try`; if any call raises, the symbol's result
has `status = 'error'` (agents after the raising one never run, which is
observationally the same as this simultaneous match); otherwise
`avg_score = round(sum(scores)/4, 1)` and `status = 'success'`. -/
def analyzeStock (symbol : String) (b : StockBeh) : StockResult :=
  match callResult b.tech, callResult b.quant, callResult b.qual,
      callResult b.news with
  | .ok t, .ok q, .ok l, .ok n =>
    { symbol := symbol
      status := .success
      avgScore := .some (pyRound1 (((t.1 + q.1 + l.1 + n.1 : ℤ) : ℚ) / 4)) }
  | _, _, _, _ =>
    { symbol := symbol, status := .error, avgScore := .none }

/-- The summary artifact `main` writes (lines 104-109): stock count,
success count, and the full per-symbol result list. -/
structure BatchSummary where
  total : ℕ
  successCount : ℕ
  results : List StockResult
  deriving DecidableEq

/-- `main` (`daily_level1_batch.py` lines 85-117): analyze every stock in
order, collect every per-symbol result, and build the summary. -/
def mainBatch (stocks : List (String × StockBeh)) : BatchSummary :=
  let results := stocks.map (fun p => analyzeStock p.1 p.2)
  { total := stocks.length
    successCount :=
      (results.filter (fun r => r.status == Status.success)).length
    results := results }

/-! ## Concrete inputs used by counterexamples and witnesses -/

/-- A technical data point on which `analyze_price_trend` stacks the full
moving-average alignment (10), the golden-cross bonus (3), price above all
three moving averages (3+3+2) and a strong MA20 slope (7): raw score 28.
The slope is (105 - 95) / 105 * 100, well above 2. -/
def strongTrendData : TechData :=
  { dataLen := 60
    ma5 := 110
    ma20 := 105
    ma60 := 100
    prevMa5 := 104
    prevMa20 := 105
    close := 120
    ma20Back5 := 95
    rsi := 60
    macd := 1
    macdSignal := 0
    prevMacd := 0
    prevMacdSignal := 1
    macdHist := 1
    prevMacdHist := 0
    bbPos := 1/2
    bbWidth := 1
    prevBbWidth := 1
    avgBbWidth := 1
    bbMiddle := 1
    prevBbMiddle := 0
    volRatio := 2
    volTrend := 2
    obv := 1
    obvBack5 := 0
    closeBack5 := 100 }

/-- An info dict whose `grossMargins` key is present with value `None`
(as yfinance returns for symbols without margin data) and whose other
fields are absent. -/
def noneMarginInfo : QualInfoRaw :=
  { marketCap := .none
    grossMargins := .some .none
    revenuePerShare := .none
    sectorDiversified := false
    industrySemiElec := false
    industryBankFin := false }

/-- The sanitized reading of a raw info dict (coincides with the raw
semantics whenever no read field is a stored `None`); fields the business
model does not read are filled neutrally. -/
def QualInfoRaw.sanitize (i : QualInfoRaw) : QualInfo :=
  { marketCap := rawToOpt i.marketCap
    grossMargins := rawToOpt i.grossMargins
    revenuePerShare := rawToOpt i.revenuePerShare
    dividendYield := .none
    payoutRatio := .none
    heldPercentInsiders := .none
    heldPercentInstitutions := .none
    fullTimeEmployees := .none
    beta := .none
    debtToEquity := .none
    revenueGrowth := .none
    currentRatio := .none
    sectorDiversified := i.sectorDiversified
    industrySemiElec := i.industrySemiElec
    industryBankFin := i.industryBankFin
    sectorGrowth := false
    sectorStable := false
    sectorDefensive := false
    industryHighTech := false
    industryElectronics := false
    industryBank := false }

/-- The quant info dict of a symbol every one of whose fundamental fields
is present but stored as `None`. -/
def noneQuantInfo : QuantInfo :=
  { returnOnEquity := .some .none
    returnOnAssets := .some .none
    operatingMargins := .some .none
    profitMargins := .some .none
    revenueGrowth := .some .none
    earningsGrowth := .some .none
    earningsQuarterlyGrowth := .some .none
    debtToEquity := .some .none
    currentRatio := .some .none
    operatingCashflow := .some .none
    totalRevenue := .some .none
    trailingPE := .some .none
    forwardPE := .some .none
    priceToBook := .some .none
    pegRatio := .some .none
    enterpriseToEbitda := .some .none }

/-! ## Helper lemmas: sub-score bounds -/

theorem techPriceTrendRaw_bounds (d : TechData) :
    0 ≤ techPriceTrendRaw d ∧ techPriceTrendRaw d ≤ 28 := by
  unfold techPriceTrendRaw
  dsimp only
  split_ifs <;> omega

theorem techMomentumRaw_bounds (d : TechData) :
    0 ≤ techMomentumRaw d ∧ techMomentumRaw d ≤ 25 := by
  unfold techMomentumRaw
  dsimp only
  split_ifs <;> omega

theorem techBollingerRaw_bounds (d : TechData) :
    0 ≤ techBollingerRaw d ∧ techBollingerRaw d ≤ 25 := by
  unfold techBollingerRaw
  dsimp only
  split_ifs <;> omega

theorem techVolumeRaw_bounds (d : TechData) :
    0 ≤ techVolumeRaw d ∧ techVolumeRaw d ≤ 25 := by
  unfold techVolumeRaw
  dsimp only
  split_ifs <;> omega

theorem techPriceTrend_bounds (d : TechData) :
    0 ≤ techPriceTrend d ∧ techPriceTrend d ≤ 25 := by
  have h := techPriceTrendRaw_bounds d
  unfold techPriceTrend
  omega

theorem techMomentum_bounds (d : TechData) :
    0 ≤ techMomentum d ∧ techMomentum d ≤ 25 := by
  have h := techMomentumRaw_bounds d
  unfold techMomentum
  omega

theorem techBollinger_bounds (d : TechData) :
    0 ≤ techBollinger d ∧ techBollinger d ≤ 25 := by
  have h := techBollingerRaw_bounds d
  unfold techBollinger
  omega

theorem techVolume_bounds (d : TechData) :
    0 ≤ techVolume d ∧ techVolume d ≤ 25 := by
  have h := techVolumeRaw_bounds d
  unfold techVolume
  omega

theorem roeLadder_bounds (x : ℚ) : 0 ≤ roeLadder x ∧ roeLadder x ≤ 8 := by
  unfold roeLadder
  split_ifs <;> omega

theorem roaLadder_bounds (x : ℚ) : 0 ≤ roaLadder x ∧ roaLadder x ≤ 5 := by
  unfold roaLadder
  split_ifs <;> omega

theorem opMarginLadder_bounds (x : ℚ) :
    0 ≤ opMarginLadder x ∧ opMarginLadder x ≤ 6 := by
  unfold opMarginLadder
  split_ifs <;> omega

theorem netMarginLadder_bounds (x : ℚ) :
    0 ≤ netMarginLadder x ∧ netMarginLadder x ≤ 6 := by
  unfold netMarginLadder
  split_ifs <;> omega

theorem quantProfitability_bounds (i : QuantInfo) :
    0 ≤ quantProfitability i ∧ quantProfitability i ≤ 25 := by
  have h1 := roeLadder_bounds (getMetric i.returnOnEquity 0 * 100)
  have h2 := roaLadder_bounds (getMetric i.returnOnAssets 0 * 100)
  have h3 := opMarginLadder_bounds (getMetric i.operatingMargins 0 * 100)
  have h4 := netMarginLadder_bounds (getMetric i.profitMargins 0 * 100)
  unfold quantProfitability
  omega

theorem revGrowthLadder_bounds (x : ℚ) :
    0 ≤ revGrowthLadder x ∧ revGrowthLadder x ≤ 10 := by
  unfold revGrowthLadder
  split_ifs <;> omega

theorem earnGrowthLadder_bounds (x : ℚ) :
    0 ≤ earnGrowthLadder x ∧ earnGrowthLadder x ≤ 8 := by
  unfold earnGrowthLadder
  split_ifs <;> omega

theorem epsGrowthLadder_bounds (x : ℚ) :
    0 ≤ epsGrowthLadder x ∧ epsGrowthLadder x ≤ 7 := by
  unfold epsGrowthLadder
  split_ifs <;> omega

theorem quantGrowth_bounds (i : QuantInfo) :
    0 ≤ quantGrowth i ∧ quantGrowth i ≤ 25 := by
  have h1 := revGrowthLadder_bounds (getMetric i.revenueGrowth 0 * 100)
  have h2 := earnGrowthLadder_bounds (getMetric i.earningsGrowth 0 * 100)
  have h3 :=
    epsGrowthLadder_bounds (getMetric i.earningsQuarterlyGrowth 0 * 100)
  unfold quantGrowth
  omega

theorem debtLadder_bounds (x : ℚ) : 0 ≤ debtLadder x ∧ debtLadder x ≤ 10 := by
  unfold debtLadder
  split_ifs <;> omega

theorem currentRatioLadder_bounds (x : ℚ) :
    0 ≤ currentRatioLadder x ∧ currentRatioLadder x ≤ 8 := by
  unfold currentRatioLadder
  split_ifs <;> omega

theorem cfMarginLadder_bounds (x : ℚ) :
    0 ≤ cfMarginLadder x ∧ cfMarginLadder x ≤ 7 := by
  unfold cfMarginLadder
  split_ifs <;> omega

theorem quantStability_bounds (i : QuantInfo) :
    0 ≤ quantStability i ∧ quantStability i ≤ 25 := by
  have h1 := debtLadder_bounds (getMetric i.debtToEquity 100)
  have h2 := currentRatioLadder_bounds (getMetric i.currentRatio 1)
  unfold quantStability
  dsimp only
  constructor
  all_goals
    have h3 := cfMarginLadder_bounds
      (if getMetric i.totalRevenue 1 > 0 then
        getMetric i.operatingCashflow 0 / getMetric i.totalRevenue 1 * 100
      else 0)
    omega

theorem peLadder_bounds (x : ℚ) : 0 ≤ peLadder x ∧ peLadder x ≤ 8 := by
  unfold peLadder
  split_ifs <;> omega

theorem pbLadder_bounds (x : ℚ) : 0 ≤ pbLadder x ∧ pbLadder x ≤ 6 := by
  unfold pbLadder
  split_ifs <;> omega

theorem pegLadder_bounds (x : ℚ) : 0 ≤ pegLadder x ∧ pegLadder x ≤ 6 := by
  unfold pegLadder
  split_ifs <;> omega

theorem evLadder_bounds (x : ℚ) : 0 ≤ evLadder x ∧ evLadder x ≤ 5 := by
  unfold evLadder
  split_ifs <;> omega

theorem quantValuation_bounds (i : QuantInfo) :
    0 ≤ quantValuation i ∧ quantValuation i ≤ 25 := by
  have h1 := peLadder_bounds (getMetric i.trailingPE 20)
  have h2 := pbLadder_bounds (getMetric i.priceToBook 2)
  have h3 := pegLadder_bounds (getMetric i.pegRatio 2)
  have h4 := evLadder_bounds (getMetric i.enterpriseToEbitda 12)
  unfold quantValuation
  omega

theorem qualBusinessModel_bounds (i : QualInfo) :
    0 ≤ qualBusinessModel i ∧ qualBusinessModel i ≤ 25 := by
  unfold qualBusinessModel
  dsimp only
  split_ifs <;> omega

theorem qualManagement_bounds (i : QualInfo) :
    0 ≤ qualManagement i ∧ qualManagement i ≤ 25 := by
  unfold qualManagement
  dsimp only
  split_ifs <;> omega

theorem qualIndustryOutlook_bounds (i : QualInfo) :
    0 ≤ qualIndustryOutlook i ∧ qualIndustryOutlook i ≤ 25 := by
  unfold qualIndustryOutlook
  dsimp only
  split_ifs <;> omega

theorem qualRiskFactors_bounds (i : QualInfo) :
    0 ≤ qualRiskFactors i ∧ qualRiskFactors i ≤ 25 := by
  unfold qualRiskFactors
  dsimp only
  split_ifs <;> omega

theorem newsSentiment_bounds (n : NewsData) :
    0 ≤ newsSentiment n ∧ newsSentiment n ≤ 25 := by
  unfold newsSentiment
  dsimp only
  split_ifs <;> omega

theorem newsSocialMedia_bounds (n : NewsData) :
    0 ≤ newsSocialMedia n ∧ newsSocialMedia n ≤ 25 := by
  unfold newsSocialMedia
  dsimp only
  split_ifs <;> omega

theorem newsEventRisk_bounds (n : NewsData) :
    0 ≤ newsEventRisk n ∧ newsEventRisk n ≤ 25 := by
  unfold newsEventRisk
  dsimp only
  split_ifs <;> omega

theorem newsMomentumSignals_bounds (n : NewsData) :
    0 ≤ newsMomentumSignals n ∧ newsMomentumSignals n ≤ 25 := by
  unfold newsMomentumSignals
  dsimp only
  split_ifs <;> omega

/-! ## Claim theorems -/

/-- Claim C2: each of the four Dimension Scorers derives its recommendation
by the same threshold ladder — BUY iff total >= 70, HOLD iff
50 <= total < 70, SELL iff total < 50 — the mapping is identical across all
four scorers, and the boundary values 100, 69, 50, 49, 0 map to BUY, HOLD,
HOLD, SELL, SELL.  (Proved for every integer total, in particular every
total in [0, 100].) -/
theorem recommendation_ladder_uniform :
    (∀ total : ℤ,
      (techRecommendation total = Rec.buy ↔ 70 ≤ total) ∧
      (techRecommendation total = Rec.hold ↔ 50 ≤ total ∧ total < 70) ∧
      (techRecommendation total = Rec.sell ↔ total < 50) ∧
      techRecommendation total = quantRecommendation total ∧
      techRecommendation total = qualRecommendation total ∧
      techRecommendation total = newsRecommendation total) ∧
    techRecommendation 100 = Rec.buy ∧
    techRecommendation 69 = Rec.hold ∧
    techRecommendation 50 = Rec.hold ∧
    techRecommendation 49 = Rec.sell ∧
    techRecommendation 0 = Rec.sell := by
  refine ⟨fun t => ?_, by decide, by decide, by decide, by decide, by decide⟩
  unfold techRecommendation quantRecommendation qualRecommendation
    newsRecommendation
  split_ifs <;> simp_all <;> omega

/-- Claim C1, counterexample: the vote vector (buy=0, hold=1, sell=3) —
recommendations [HOLD, SELL, SELL, SELL] — yields SELL in
`run_all_level1_agents` but HOLD in the `daily_level1_fdr.py` /
`daily_level1_fullmarket.py` entry points, whose consensus expression has
no SELL branch; so the claimed rule does not hold in every entry point. -/
theorem consensus_sell_branch_missing :
    countRec Rec.buy [Rec.hold, Rec.sell, Rec.sell, Rec.sell] = 0 ∧
    countRec Rec.hold [Rec.hold, Rec.sell, Rec.sell, Rec.sell] = 1 ∧
    countRec Rec.sell [Rec.hold, Rec.sell, Rec.sell, Rec.sell] = 3 ∧
    consensusLevel1All [Rec.hold, Rec.sell, Rec.sell, Rec.sell] =
      Consensus.sell ∧
    consensusFDR [Rec.hold, Rec.sell, Rec.sell, Rec.sell] =
      Consensus.hold ∧
    Consensus.hold ≠ Consensus.sell := by
  decide

/-- Claim C1, amended: the consensus of `run_all_level1_agents`
(`test_level1_all.py`) follows the fixed priority order — STRONG BUY if
buy_votes >= 3, else BUY if buy_votes >= 2, else SELL if sell_votes >= 2,
else HOLD, so (buy=0, hold=1, sell=3) yields SELL there — but the
`daily_level1_fdr.py` and `daily_level1_fullmarket.py` entry points omit
the SELL branch: they never output SELL, and output HOLD whenever
buy_votes < 2. -/
theorem consensus_priority_order (recs : List Rec) :
    (3 ≤ countRec Rec.buy recs →
      consensusLevel1All recs = Consensus.strongBuy) ∧
    (countRec Rec.buy recs < 3 → 2 ≤ countRec Rec.buy recs →
      consensusLevel1All recs = Consensus.buy) ∧
    (countRec Rec.buy recs < 2 → 2 ≤ countRec Rec.sell recs →
      consensusLevel1All recs = Consensus.sell) ∧
    (countRec Rec.buy recs < 2 → countRec Rec.sell recs < 2 →
      consensusLevel1All recs = Consensus.hold) ∧
    consensusFDR recs ≠ Consensus.sell ∧
    (countRec Rec.buy recs < 2 → consensusFDR recs = Consensus.hold) := by
  unfold consensusLevel1All consensusFDR
  dsimp only
  split_ifs <;> simp_all <;> omega

/-- Witness for the amended claim C1 at the vote vector
(buy=0, hold=1, sell=3). -/
theorem consensus_priority_order_witness :
    consensusLevel1All [Rec.hold, Rec.sell, Rec.sell, Rec.sell] =
      Consensus.sell ∧
    consensusFDR [Rec.hold, Rec.sell, Rec.sell, Rec.sell] ≠
      Consensus.sell ∧
    consensusFDR [Rec.hold, Rec.sell, Rec.sell, Rec.sell] =
      Consensus.hold := by
  have h := consensus_priority_order
    [Rec.hold, Rec.sell, Rec.sell, Rec.sell]
  exact ⟨h.2.2.1 (by decide) (by decide), h.2.2.2.2.1,
    h.2.2.2.2.2 (by decide)⟩

/-- Claim C6: the Level-3 rule (PM_001, `investment_agent_group.py` lines
311-318) computes composite = 0.5*L1 + 0.3*L2 + 0.2*judgment and
classifies Long iff composite >= 70, Neutral iff 40 < composite < 70,
Short iff composite <= 40; in particular L1 = 72.5, L2 = 60,
judgment = 50 gives composite 64.25 and classification Neutral. -/
theorem pm_synthesis_rule :
    (∀ c : ℚ,
      (pmClassify c = PMClass.long ↔ 70 ≤ c) ∧
      (pmClassify c = PMClass.neutral ↔ 40 < c ∧ c < 70) ∧
      (pmClassify c = PMClass.short ↔ c ≤ 40)) ∧
    pmComposite (145/2) 60 50 = 257/4 ∧
    pmClassify (pmComposite (145/2) 60 50) = PMClass.neutral := by
  refine ⟨fun c => ?_, by unfold pmComposite; norm_num,
    by norm_num [pmComposite, pmClassify]⟩
  unfold pmClassify
  split_ifs <;> simp_all <;> first
  | linarith
  | (constructor <;> linarith)

/-- Claim C9: every Dimension Scorer is deterministic in its frozen input —
the DimensionScore part of the analyze result (breakdown, total,
recommendation) is a pure function of the fetched data; only the
`analysis_date` stamp depends on the wall clock, so two runs at different
times agree on the whole DimensionScore. -/
theorem scorers_deterministic (d : TechData) (qi : QuantInfo)
    (li : QualInfo) (ni : NewsData) (t1 t2 : ℕ) :
    (techAnalyze d t1).dimensionScore = (techAnalyze d t2).dimensionScore ∧
    (quantAnalyze qi t1).dimensionScore =
      (quantAnalyze qi t2).dimensionScore ∧
    (qualAnalyze li t1).dimensionScore =
      (qualAnalyze li t2).dimensionScore ∧
    (newsAnalyze ni t1).dimensionScore =
      (newsAnalyze ni t2).dimensionScore :=
  ⟨rfl, rfl, rfl, rfl⟩

/-- Claim C10: on an empty info mapping every quant metric read returns its
coded default (debtToEquity 100, currentRatio 1.0, trailingPE 20,
priceToBook 2, pegRatio 2, enterpriseToEbitda 12, the rest 0), giving
profitability 0, growth 0, stability 10, valuation 12, total 22 and
recommendation SELL. -/
theorem quant_empty_info_defaults :
    quantProfitability emptyQuantInfo = 0 ∧
    quantGrowth emptyQuantInfo = 0 ∧
    quantStability emptyQuantInfo = 10 ∧
    quantValuation emptyQuantInfo = 12 ∧
    (quantAnalyze emptyQuantInfo 0).totalScore = 22 ∧
    (quantAnalyze emptyQuantInfo 0).recommendation = Rec.sell := by
  norm_num [quantAnalyze, quantRecommendation, quantProfitability,
    quantGrowth, quantStability, quantValuation, emptyQuantInfo, getMetric,
    roeLadder, roaLadder, opMarginLadder, netMarginLadder, revGrowthLadder,
    earnGrowthLadder, epsGrowthLadder, debtLadder, currentRatioLadder,
    cfMarginLadder, peLadder, pbLadder, pegLadder, evLadder]

/-- Claim C3: for every input, each scorer's reported total equals the sum
of its four breakdown sub-scores, every sub-score lies in [0, 25], and
hence the total lies in [0, 100]; this holds for all four Dimension
Scorers. -/
theorem dimension_score_invariant (d : TechData) (qi : QuantInfo)
    (li : QualInfo) (ni : NewsData) (now : ℕ) :
    ((techAnalyze d now).totalScore =
        (techAnalyze d now).priceTrend + (techAnalyze d now).momentum +
        (techAnalyze d now).bollinger + (techAnalyze d now).volume ∧
      (0 ≤ (techAnalyze d now).priceTrend ∧
        (techAnalyze d now).priceTrend ≤ 25) ∧
      (0 ≤ (techAnalyze d now).momentum ∧
        (techAnalyze d now).momentum ≤ 25) ∧
      (0 ≤ (techAnalyze d now).bollinger ∧
        (techAnalyze d now).bollinger ≤ 25) ∧
      (0 ≤ (techAnalyze d now).volume ∧ (techAnalyze d now).volume ≤ 25) ∧
      0 ≤ (techAnalyze d now).totalScore ∧
      (techAnalyze d now).totalScore ≤ 100) ∧
    ((quantAnalyze qi now).totalScore =
        (quantAnalyze qi now).profitability +
        (quantAnalyze qi now).growth + (quantAnalyze qi now).stability +
        (quantAnalyze qi now).valuation ∧
      (0 ≤ (quantAnalyze qi now).profitability ∧
        (quantAnalyze qi now).profitability ≤ 25) ∧
      (0 ≤ (quantAnalyze qi now).growth ∧
        (quantAnalyze qi now).growth ≤ 25) ∧
      (0 ≤ (quantAnalyze qi now).stability ∧
        (quantAnalyze qi now).stability ≤ 25) ∧
      (0 ≤ (quantAnalyze qi now).valuation ∧
        (quantAnalyze qi now).valuation ≤ 25) ∧
      0 ≤ (quantAnalyze qi now).totalScore ∧
      (quantAnalyze qi now).totalScore ≤ 100) ∧
    ((qualAnalyze li now).totalScore =
        (qualAnalyze li now).businessModel +
        (qualAnalyze li now).management +
        (qualAnalyze li now).industryOutlook +
        (qualAnalyze li now).riskFactors ∧
      (0 ≤ (qualAnalyze li now).businessModel ∧
        (qualAnalyze li now).businessModel ≤ 25) ∧
      (0 ≤ (qualAnalyze li now).management ∧
        (qualAnalyze li now).management ≤ 25) ∧
      (0 ≤ (qualAnalyze li now).industryOutlook ∧
        (qualAnalyze li now).industryOutlook ≤ 25) ∧
      (0 ≤ (qualAnalyze li now).riskFactors ∧
        (qualAnalyze li now).riskFactors ≤ 25) ∧
      0 ≤ (qualAnalyze li now).totalScore ∧
      (qualAnalyze li now).totalScore ≤ 100) ∧
    ((newsAnalyze ni now).totalScore =
        (newsAnalyze ni now).sentiment + (newsAnalyze ni now).socialMedia +
        (newsAnalyze ni now).eventRisk +
        (newsAnalyze ni now).momentumSignals ∧
      (0 ≤ (newsAnalyze ni now).sentiment ∧
        (newsAnalyze ni now).sentiment ≤ 25) ∧
      (0 ≤ (newsAnalyze ni now).socialMedia ∧
        (newsAnalyze ni now).socialMedia ≤ 25) ∧
      (0 ≤ (newsAnalyze ni now).eventRisk ∧
        (newsAnalyze ni now).eventRisk ≤ 25) ∧
      (0 ≤ (newsAnalyze ni now).momentumSignals ∧
        (newsAnalyze ni now).momentumSignals ≤ 25) ∧
      0 ≤ (newsAnalyze ni now).totalScore ∧
      (newsAnalyze ni now).totalScore ≤ 100) := by
  have tp := techPriceTrend_bounds d
  have tm := techMomentum_bounds d
  have tb := techBollinger_bounds d
  have tv := techVolume_bounds d
  have qp := quantProfitability_bounds qi
  have qg := quantGrowth_bounds qi
  have qs := quantStability_bounds qi
  have qv := quantValuation_bounds qi
  have lb := qualBusinessModel_bounds li
  have lm := qualManagement_bounds li
  have lo := qualIndustryOutlook_bounds li
  have lr := qualRiskFactors_bounds li
  have ns := newsSentiment_bounds ni
  have no := newsSocialMedia_bounds ni
  have ne := newsEventRisk_bounds ni
  have nm := newsMomentumSignals_bounds ni
  have ht : (techAnalyze d now).totalScore =
      techPriceTrend d + techMomentum d + techBollinger d + techVolume d :=
    rfl
  have hq : (quantAnalyze qi now).totalScore =
      quantProfitability qi + quantGrowth qi + quantStability qi +
        quantValuation qi := rfl
  have hl : (qualAnalyze li now).totalScore =
      qualBusinessModel li + qualManagement li + qualIndustryOutlook li +
        qualRiskFactors li := rfl
  have hn : (newsAnalyze ni now).totalScore =
      newsSentiment ni + newsSocialMedia ni + newsEventRisk ni +
        newsMomentumSignals ni := rfl
  exact ⟨⟨rfl, tp, tm, tb, tv, by rw [ht]; omega⟩,
    ⟨rfl, qp, qg, qs, qv, by rw [hq]; omega⟩,
    ⟨rfl, lb, lm, lo, lr, by rw [hl]; omega⟩,
    ⟨rfl, ns, no, ne, nm, by rw [hn]; omega⟩⟩

/-- Claim C8, counterexample: on `strongTrendData` the price-trend ladder
accumulates 28 before the clamp (full alignment 10 + golden-cross bonus 3 +
price above all MAs 3+3+2 + strong slope 7), so `min(score, 25)` does
change the returned sub-score; the claim that every technical ladder stays
at or below 25 before the clamp is false. -/
theorem price_trend_clamp_active :
    techPriceTrendRaw strongTrendData = 28 ∧
    techPriceTrend strongTrendData = 25 ∧
    techPriceTrend strongTrendData ≠ techPriceTrendRaw strongTrendData := by
  norm_num [techPriceTrendRaw, techPriceTrend, strongTrendData]

/-- Claim C8, amended: the momentum, bollinger and volume ladders are
already at most 25 before the clamp on every input (the clamp never
changes those sub-scores), but the price-trend ladder can reach up to 28 —
the golden-cross bonus stacks on a full 25 — so its clamp is a live code
path. -/
theorem tech_ladder_clamp_bounds (d : TechData) :
    techMomentumRaw d ≤ 25 ∧
    techBollingerRaw d ≤ 25 ∧
    techVolumeRaw d ≤ 25 ∧
    techMomentum d = techMomentumRaw d ∧
    techBollinger d = techBollingerRaw d ∧
    techVolume d = techVolumeRaw d ∧
    techPriceTrendRaw d ≤ 28 := by
  have h1 := techMomentumRaw_bounds d
  have h2 := techBollingerRaw_bounds d
  have h3 := techVolumeRaw_bounds d
  have h4 := techPriceTrendRaw_bounds d
  unfold techMomentum techBollinger techVolume
  omega

/-- Claim C4, counterexample: in `run_all_level1_agents`, with one
successful agent (total 80, BUY) and three failed agents, the summary's
average_score is 20 — the failed agents are counted as score 0 — not 80 as
the mean over successful results only would give; and the three failed
agents are counted as HOLD votes. -/
theorem failed_agents_not_excluded :
    (runAllLevel1Summary .none (.some ⟨80, Rec.buy⟩) .none
        .none).averageScore = 20 ∧
    (runAllLevel1Summary .none (.some ⟨80, Rec.buy⟩) .none
        .none).averageScore ≠ 80 ∧
    (runAllLevel1Summary .none (.some ⟨80, Rec.buy⟩) .none
        .none).holdVotes = 3 ∧
    (runAllLevel1Summary .none (.some ⟨80, Rec.buy⟩) .none
        .none).buyVotes = 1 := by
  refine ⟨?_, ?_, by decide, by decide⟩ <;>
    norm_num [runAllLevel1Summary, dictScore, dictRec, countRec, pyRound1,
      roundHalfEven, consensusLevel1All]

/-- Claim C4, amended: failed agents are not excluded from the Level-1
aggregation of `run_all_level1_agents`: each failed agent contributes score
0 and a HOLD vote.  With 3 of 4 agents failed and one successful with total
T, average_score is round(T/4, 1) (not T), the failures appear as 3 HOLD
votes, and with all 4 failed the summary is still produced, with
average_score 0, consensus HOLD and 4 HOLD votes (no failed marker). -/
theorem failed_agents_default_contribution (a : AgentOut) :
    (runAllLevel1Summary .none (.some a) .none .none).averageScore =
      pyRound1 ((a.totalScore : ℚ) / 4) ∧
    (runAllLevel1Summary .none (.some a) .none .none).holdVotes =
      3 + (if a.recommendation = Rec.hold then 1 else 0) ∧
    (runAllLevel1Summary .none (.some a) .none .none).buyVotes =
      (if a.recommendation = Rec.buy then 1 else 0) ∧
    (runAllLevel1Summary .none (.some a) .none .none).sellVotes =
      (if a.recommendation = Rec.sell then 1 else 0) ∧
    (runAllLevel1Summary .none .none .none .none).averageScore = 0 ∧
    (runAllLevel1Summary .none .none .none .none).consensus =
      Consensus.hold ∧
    (runAllLevel1Summary .none .none .none .none).holdVotes = 4 := by
  obtain ⟨t, r⟩ := a
  refine ⟨?_, ?_, ?_, ?_, ?_, ?_, ?_⟩
  · show pyRound1 _ = pyRound1 _
    congr 1
    simp [dictScore]
  · cases r <;> rfl
  · cases r <;> rfl
  · cases r <;> rfl
  · norm_num [runAllLevel1Summary, dictScore, pyRound1, roundHalfEven]
  · decide
  · decide

/-- Claim C5, counterexample: the qualitative scorer's `get_info` has no
`None` guard, so on an info dict whose `grossMargins` key is present with
value `None`, `analyze_business_model` raises a TypeError at
`self.get_info('grossMargins', 0) * 100` — the score computation does not
fall back to a neutral default on a present-but-None field. -/
theorem qual_none_field_raises :
    qualBusinessModelRaw noneMarginInfo = Except.error () := by
  rfl

/-- Claim C5, amended: the quantitative scorer's `get_metric` coalesces
both an absent key and a stored `None` to the documented default, so its
scoring never raises and an all-None info dict scores exactly like an empty
one, with every sub-score reduced below the maximum 25; the qualitative
scorer's `get_info` only defends against absent keys — with no
stored-`None` field its business-model score is produced (and agrees with
the total model), but a stored `None` raises (see the counterexample). -/
theorem missing_field_defaults :
    (∀ i : QualInfoRaw, i.marketCap ≠ .some PyVal.none →
      i.grossMargins ≠ .some PyVal.none →
      i.revenuePerShare ≠ .some PyVal.none →
      qualBusinessModelRaw i =
        Except.ok (qualBusinessModel i.sanitize)) ∧
    (∀ dflt : ℚ, getMetric (.some PyVal.none) dflt = dflt ∧
      getMetric .none dflt = dflt) ∧
    quantAnalyze noneQuantInfo 0 = quantAnalyze emptyQuantInfo 0 ∧
    quantProfitability emptyQuantInfo < 25 ∧
    quantGrowth emptyQuantInfo < 25 ∧
    quantStability emptyQuantInfo < 25 ∧
    quantValuation emptyQuantInfo < 25 := by
  refine ⟨?_, fun d => ⟨rfl, rfl⟩, rfl, ?_, ?_, ?_, ?_⟩
  · rintro ⟨mc, gm, rd, b1, b2, b3⟩ h1 h2 h3
    rcases mc with _ | (_ | mcq) <;> rcases gm with _ | (_ | gmq) <;>
      rcases rd with _ | (_ | rdq) <;>
      first
      | (exact absurd rfl h1)
      | (exact absurd rfl h2)
      | (exact absurd rfl h3)
      | rfl
  all_goals
    norm_num [quantProfitability, quantGrowth, quantStability,
      quantValuation, emptyQuantInfo, getMetric, roeLadder, roaLadder,
      opMarginLadder, netMarginLadder, revGrowthLadder, earnGrowthLadder,
      epsGrowthLadder, debtLadder, currentRatioLadder, cfMarginLadder,
      peLadder, pbLadder, pegLadder, evLadder]

/-- Witness for the amended claim C5 at a concrete info dict with every
business-model field present and numeric. -/
theorem missing_field_defaults_witness :
    qualBusinessModelRaw
        ⟨.some (.num 60000000000000), .some (.num (6/10)),
          .some (.num 5), true, false, false⟩ =
      Except.ok (qualBusinessModel (QualInfoRaw.sanitize
        ⟨.some (.num 60000000000000), .some (.num (6/10)),
          .some (.num 5), true, false, false⟩)) :=
  missing_field_defaults.1 _ (by simp) (by simp) (by simp)

/-- Claim C7: in the daily batch runner, symbols are processed
independently — the summary has one result per symbol in order, an
exception in any agent of a symbol gives that symbol status error (and
nothing else), every symbol ends with status success or error, and
changing one symbol's behaviour cannot change any other symbol's recorded
result. -/
theorem batch_error_containment :
    (∀ stocks : List (String × StockBeh),
      (mainBatch stocks).total = stocks.length ∧
      (mainBatch stocks).results.length = stocks.length ∧
      ∀ j : ℕ, (mainBatch stocks).results[j]? =
        (stocks[j]?).map fun p => analyzeStock p.1 p.2) ∧
    (∀ (s : String) (b : StockBeh),
      b.tech = .raises ∨ b.quant = .raises ∨ b.qual = .raises ∨
        b.news = .raises →
      (analyzeStock s b).status = Status.error) ∧
    (∀ (s : String) (b : StockBeh),
      (analyzeStock s b).status = Status.success ∨
      (analyzeStock s b).status = Status.error) ∧
    (∀ (stocks : List (String × StockBeh)) (i : ℕ)
      (p : String × StockBeh) (j : ℕ), j ≠ i →
      (mainBatch (stocks.set i p)).results[j]? =
        (mainBatch stocks).results[j]?) := by
  refine ⟨fun stocks => ⟨rfl, by simp [mainBatch], fun j => ?_⟩, ?_, ?_, ?_⟩
  · simp [mainBatch, List.getElem?_map]
  · rintro s ⟨bt, bq, bl, bn⟩ h
    cases bt <;> cases bq <;> cases bl <;> cases bn <;>
      simp_all [analyzeStock, callResult]
  · intro s b
    cases hst : (analyzeStock s b).status
    · exact Or.inl rfl
    · exact Or.inr rfl
  · intro stocks i p j hne
    show ((stocks.set i p).map fun p => analyzeStock p.1 p.2)[j]? =
      (stocks.map fun p => analyzeStock p.1 p.2)[j]?
    rw [List.getElem?_map, List.getElem?_map,
      List.getElem?_set_ne (by omega)]

/-- Witness for claim C7: a symbol whose technical agent raises ends with
status error, and replacing the first symbol's behaviour leaves the second
symbol's recorded result unchanged. -/
theorem batch_error_containment_witness :
    (analyzeStock "A"
        ⟨.raises, .ok ⟨80, Rec.buy⟩, .ok ⟨60, Rec.hold⟩,
          .ok ⟨50, Rec.hold⟩⟩).status = Status.error ∧
    (mainBatch ([("A", ⟨.raises, .raises, .raises, .raises⟩),
        ("B", ⟨.ok ⟨80, Rec.buy⟩, .ok ⟨60, Rec.hold⟩, .ok ⟨50, Rec.hold⟩,
          .ok ⟨70, Rec.buy⟩⟩)].set 0
        ("A", ⟨.ok ⟨10, Rec.sell⟩, .raises, .errDict,
          .raises⟩))).results[1]? =
      (mainBatch [("A", ⟨.raises, .raises, .raises, .raises⟩),
        ("B", ⟨.ok ⟨80, Rec.buy⟩, .ok ⟨60, Rec.hold⟩, .ok ⟨50, Rec.hold⟩,
          .ok ⟨70, Rec.buy⟩⟩)]).results[1]? :=
  ⟨batch_error_containment.2.1 "A" _ (Or.inl rfl),
    batch_error_containment.2.2.2 _ 0 _ 1 (by decide)⟩

end KStock
